import Mathlib

/-!
Shallow embedding of `src/asdeconfig.py` (configuration loader/validator of the
Autonomous Strategy Discovery Engine) and proofs of the specification claims.

The Python module reads process environment variables, builds a nested
dataclass tree (`ASDEConfig` owning a `FirebaseConfig` and a `DataConfig`) and
validates it in `__post_init__`.  We model:

  * the environment as an association list `Env` (a key occurs at most once in
    a real process environment; lookup takes the first binding),
  * the filesystem as the list `FS` of paths that exist (`os.path.exists` is
    only used as an existence test, never to read contents),
  * each Python exception site as a constructor of `ConfigError`,
  * construction of `ASDEConfig()` as `ASDEConfig.construct : Env → FS →
    Except ConfigError ASDEConfig`.  Dataclass field `default_factory`
    closures run in field declaration order, before `__post_init__`; this
    order is reproduced in `ASDEConfig.fromEnv`.

The source file ends in the middle of `__post_init__`: the `try:` on its line
70 has no handler in the file (the text stops after the last `raise`).  Per
the spec (§7: "All errors are surfaced synchronously to the caller of
construction (propagated, not swallowed)") the missing handler is modelled as
propagating every error; `ASDEConfig.postInit` therefore returns the first
error raised in the `try` body.
-/

namespace ASDE

/-- A process environment: finitely many `name ↦ value` bindings. -/
abbrev Env := List (String × String)

/-- The filesystem, abstracted to the set of paths that exist
(`os.path.exists` is the only filesystem operation in the source). -/
abbrev FS := List String

/-- `os.getenv(key, default)`: the bound value when `key` is present (even
when that value is the empty string), otherwise `default`. -/
def getenvD (env : Env) (key default : String) : String :=
  match env.lookup key with
  | some v => v
  | none => default

/-- `os.path.exists(p)` against the abstract filesystem. -/
def pathExists (fs : FS) (p : String) : Bool :=
  fs.contains p

/-- Python `str.lower()`.  Lean's `Char.toLower` lowers only ASCII letters
while Python lowers full Unicode, but both agree on whether the result equals
an ASCII word such as `"true"`: no non-ASCII character lowercases to a plain
ASCII letter of `"true"`. -/
def pyLower (s : String) : String :=
  ⟨s.data.map Char.toLower⟩

/-- Python whitespace stripped by `int()` (ASCII portion; the source never
feeds strings where the Unicode-only whitespace would matter). -/
def isPySpace (c : Char) : Bool :=
  c = ' ' || c = '\t' || c = '\n' || c = '\r' || c = '\x0b' || c = '\x0c'

/-- Digit run with optional single underscores between digits, as accepted by
Python `int()` (e.g. `"1_000"`; a leading, trailing or doubled underscore is
rejected).  `acc` holds the value of the digits already consumed. -/
def digitsUnd (acc : Nat) : List Char → Option Nat
  | [] => some acc
  | '_' :: c :: rest =>
      if c.isDigit then digitsUnd (acc * 10 + (c.toNat - '0'.toNat)) rest
      else none
  | ['_'] => none
  | c :: rest =>
      if c.isDigit then digitsUnd (acc * 10 + (c.toNat - '0'.toNat)) rest
      else none

/-- Python `int(s)` (base 10): strip surrounding whitespace, optional sign,
then a non-empty digit run (underscores allowed between digits).  `none`
models the `ValueError` raised on malformed input. -/
def pythonInt (s : String) : Option Int :=
  let cs := (s.toList.dropWhile isPySpace).reverse.dropWhile isPySpace |>.reverse
  match cs with
  | '+' :: rest =>
      match rest with
      | c :: rest' =>
          if c.isDigit then (digitsUnd (c.toNat - '0'.toNat) rest').map Int.ofNat
          else none
      | [] => none
  | '-' :: rest =>
      match rest with
      | c :: rest' =>
          if c.isDigit then (digitsUnd (c.toNat - '0'.toNat) rest').map (fun n => -(Int.ofNat n))
          else none
      | [] => none
  | c :: rest =>
      if c.isDigit then (digitsUnd (c.toNat - '0'.toNat) rest).map Int.ofNat
      else none
  | [] => none

/-- The `LogLevel` enumeration (`DEBUG`, `INFO`, `WARNING`, `ERROR`,
`CRITICAL`), each wrapping the corresponding `logging` severity. -/
inductive LogLevel where
  | DEBUG
  | INFO
  | WARNING
  | ERROR
  | CRITICAL
deriving DecidableEq, Repr

/-- Numeric severity carried by each member (`logging.DEBUG = 10`, …). -/
def LogLevel.value : LogLevel → Nat
  | .DEBUG => 10
  | .INFO => 20
  | .WARNING => 30
  | .ERROR => 40
  | .CRITICAL => 50

/-- `LogLevel[name]`: enum member lookup by exact name; `none` models the
`KeyError` raised for an unrecognized name. -/
def logLevelOfName (s : String) : Option LogLevel :=
  if s = "DEBUG" then some .DEBUG
  else if s = "INFO" then some .INFO
  else if s = "WARNING" then some .WARNING
  else if s = "ERROR" then some .ERROR
  else if s = "CRITICAL" then some .CRITICAL
  else none

/-- One constructor per exception site in the source (each `raise` in the
validators, `int()` parse failure, and `LogLevel[...]` lookup failure). -/
inductive ConfigError where
  /-- `ValueError("FIREBASE_PROJECT_ID environment variable must be set")`. -/
  | missingProjectId : ConfigError
  /-- `FileNotFoundError` naming the credentials path. -/
  | credentialsNotFound : String → ConfigError
  /-- `ValueError("MAX_DATA_POINTS must be positive, got …")`. -/
  | invalidMaxDataPoints : Int → ConfigError
  /-- `ValueError("Invalid market data source. …")`. -/
  | invalidMarketDataSource : ConfigError
  /-- `ValueError("MAX_PARALLEL_EXPERIMENTS must be at least 1")`. -/
  | invalidMaxParallelExperiments : ConfigError
  /-- `ValueError("SIMULATION_TIMEOUT_SECONDS must be at least 30 seconds")`. -/
  | invalidSimulationTimeout : ConfigError
  /-- `ValueError` from `int()` on the given literal. -/
  | malformedInt : String → ConfigError
  /-- `KeyError` from `LogLevel[...]` on the given name. -/
  | unknownLogLevel : String → ConfigError
deriving DecidableEq, Repr

/-- `FirebaseConfig` dataclass: fields in declaration order. -/
structure FirebaseConfig where
  project_id : String
  credentials_path : String
deriving DecidableEq, Repr

/-- The two `default_factory` closures of `FirebaseConfig` (they cannot
fail). -/
def FirebaseConfig.fromEnv (env : Env) : FirebaseConfig :=
  { project_id := getenvD env "FIREBASE_PROJECT_ID" ""
    credentials_path := getenvD env "FIREBASE_CREDENTIALS" "firebase-credentials.json" }

/-- `FirebaseConfig.validate`: empty project id first, then the credentials
existence check; the first failure raises. -/
def FirebaseConfig.validate (c : FirebaseConfig) (fs : FS) : Except ConfigError Unit :=
  if c.project_id = "" then .error .missingProjectId
  else if pathExists fs c.credentials_path = false then
    .error (.credentialsNotFound c.credentials_path)
  else .ok ()

/-- `DataConfig` dataclass: fields in declaration order. -/
structure DataConfig where
  market_data_source : String
  max_data_points : Int
  cache_enabled : Bool
deriving DecidableEq, Repr

/-- The `default_factory` closures of `DataConfig`, run in field order; the
`int()` call on `MAX_DATA_POINTS` can raise during this phase, before any
validation. -/
def DataConfig.fromEnv (env : Env) : Except ConfigError DataConfig :=
  match pythonInt (getenvD env "MAX_DATA_POINTS" "100000") with
  | none => .error (.malformedInt (getenvD env "MAX_DATA_POINTS" "100000"))
  | some mdp =>
      .ok { market_data_source := getenvD env "MARKET_DATA_SOURCE" "ccxt"
            max_data_points := mdp
            cache_enabled := pyLower (getenvD env "CACHE_ENABLED" "true") = "true" }

/-- `DataConfig.validate`: positivity of `max_data_points` first, then
membership of `market_data_source` in the fixed allowed list. -/
def DataConfig.validate (c : DataConfig) : Except ConfigError Unit :=
  if c.max_data_points ≤ 0 then .error (.invalidMaxDataPoints c.max_data_points)
  else if (["ccxt", "yfinance", "alpaca"].contains c.market_data_source) = false then
    .error .invalidMarketDataSource
  else .ok ()

/-- `ASDEConfig` dataclass: fields in declaration order. -/
structure ASDEConfig where
  log_level : LogLevel
  system_id : String
  firebase : FirebaseConfig
  data : DataConfig
  max_parallel_experiments : Int
  simulation_timeout_seconds : Int
  enable_causal_discovery : Bool
  enable_live_trading : Bool
deriving DecidableEq, Repr

/-- Field resolution phase of `ASDEConfig()`: the `default_factory` closures
run in field declaration order, so the first resolution failure (unknown
`LOG_LEVEL` name, malformed integer) is the error raised, before
`__post_init__` ever runs. -/
def ASDEConfig.fromEnv (env : Env) : Except ConfigError ASDEConfig :=
  match logLevelOfName (getenvD env "LOG_LEVEL" "INFO") with
  | none => .error (.unknownLogLevel (getenvD env "LOG_LEVEL" "INFO"))
  | some ll =>
    match DataConfig.fromEnv env with
    | .error e => .error e
    | .ok dt =>
      match pythonInt (getenvD env "MAX_PARALLEL_EXPERIMENTS" "4") with
      | none => .error (.malformedInt (getenvD env "MAX_PARALLEL_EXPERIMENTS" "4"))
      | some mpe =>
        match pythonInt (getenvD env "SIMULATION_TIMEOUT_SECONDS" "300") with
        | none => .error (.malformedInt (getenvD env "SIMULATION_TIMEOUT_SECONDS" "300"))
        | some sts =>
          .ok { log_level := ll
                system_id := getenvD env "SYSTEM_ID" "asde-prod-001"
                firebase := FirebaseConfig.fromEnv env
                data := dt
                max_parallel_experiments := mpe
                simulation_timeout_seconds := sts
                enable_causal_discovery :=
                  pyLower (getenvD env "ENABLE_CAUSAL_DISCOVERY" "true") = "true"
                enable_live_trading :=
                  pyLower (getenvD env "ENABLE_LIVE_TRADING" "false") = "true" }

/-- `ASDEConfig.__post_init__`: `firebase.validate()`, then `data.validate()`,
then the two top-level bound checks, in source order; the first raise aborts.
Modelled from the spec: the source text stops inside the `try:` block with no
handler present, and §7 of the spec states every error is propagated to the
caller, so the result of the `try` body is returned unchanged. -/
def ASDEConfig.postInit (c : ASDEConfig) (fs : FS) : Except ConfigError ASDEConfig :=
  match c.firebase.validate fs with
  | .error e => .error e
  | .ok _ =>
    match c.data.validate with
    | .error e => .error e
    | .ok _ =>
      if c.max_parallel_experiments ≤ 0 then .error .invalidMaxParallelExperiments
      else if c.simulation_timeout_seconds < 30 then .error .invalidSimulationTimeout
      else .ok c

/-- `ASDEConfig()` with no explicit arguments: resolve every field from the
environment, then run `__post_init__`. -/
def ASDEConfig.construct (env : Env) (fs : FS) : Except ConfigError ASDEConfig :=
  match ASDEConfig.fromEnv env with
  | .error e => .error e
  | .ok c => c.postInit fs

/-- The validation invariant of a Configuration, stated from the spec (§3,
§4.1): non-empty project id, existing credentials path, allowed data source,
positive data-point bound, at least one parallel experiment, timeout of at
least 30 seconds. -/
def validConfig (fs : FS) (c : ASDEConfig) : Prop :=
  c.firebase.project_id ≠ "" ∧
  pathExists fs c.firebase.credentials_path = true ∧
  (["ccxt", "yfinance", "alpaca"].contains c.data.market_data_source) = true ∧
  1 ≤ c.data.max_data_points ∧
  1 ≤ c.max_parallel_experiments ∧
  30 ≤ c.simulation_timeout_seconds

instance (fs : FS) (c : ASDEConfig) : Decidable (validConfig fs c) := by
  unfold validConfig; infer_instance

/-- The validation pass written from the spec's words (§4.1, steps 1–4):
Firebase first (empty project id, then missing credentials file), then Data
(non-positive data points, then unknown source), then the two top-level
bounds; the FIRST failing check decides the outcome. -/
def specFirstViolation (fs : FS) (c : ASDEConfig) : Option ConfigError :=
  if c.firebase.project_id = "" then some .missingProjectId
  else if pathExists fs c.firebase.credentials_path = false then
    some (.credentialsNotFound c.firebase.credentials_path)
  else if c.data.max_data_points ≤ 0 then some (.invalidMaxDataPoints c.data.max_data_points)
  else if (["ccxt", "yfinance", "alpaca"].contains c.data.market_data_source) = false then
    some .invalidMarketDataSource
  else if c.max_parallel_experiments ≤ 0 then some .invalidMaxParallelExperiments
  else if c.simulation_timeout_seconds < 30 then some .invalidSimulationTimeout
  else none

/-- Pairwise equality of every leaf field of two configurations (the spec's
"field-wise equal"). -/
def fieldwiseEq (c₁ c₂ : ASDEConfig) : Prop :=
  c₁.log_level = c₂.log_level ∧
  c₁.system_id = c₂.system_id ∧
  c₁.firebase.project_id = c₂.firebase.project_id ∧
  c₁.firebase.credentials_path = c₂.firebase.credentials_path ∧
  c₁.data.market_data_source = c₂.data.market_data_source ∧
  c₁.data.max_data_points = c₂.data.max_data_points ∧
  c₁.data.cache_enabled = c₂.data.cache_enabled ∧
  c₁.max_parallel_experiments = c₂.max_parallel_experiments ∧
  c₁.simulation_timeout_seconds = c₂.simulation_timeout_seconds ∧
  c₁.enable_causal_discovery = c₂.enable_causal_discovery ∧
  c₁.enable_live_trading = c₂.enable_live_trading

/-- All recognized variables that must parse during field resolution do
parse (so construction reaches the validation pass). -/
def resolvesOK (env : Env) : Bool :=
  (logLevelOfName (getenvD env "LOG_LEVEL" "INFO")).isSome &&
  (pythonInt (getenvD env "MAX_DATA_POINTS" "100000")).isSome &&
  (pythonInt (getenvD env "MAX_PARALLEL_EXPERIMENTS" "4")).isSome &&
  (pythonInt (getenvD env "SIMULATION_TIMEOUT_SECONDS" "300")).isSome

/-- Environment of the spec's success scenario: exactly the project id and a
credentials path that the filesystem `fsBase` contains. -/
def envBase : Env := [("FIREBASE_PROJECT_ID", "proj-1"), ("FIREBASE_CREDENTIALS", "creds.json")]

/-- Filesystem in which the scenario's credentials file exists. -/
def fsBase : FS := ["creds.json"]

lemma firebaseValidate_ok {c : FirebaseConfig} {fs : FS} {u : Unit}
    (h : c.validate fs = .ok u) :
    c.project_id ≠ "" ∧ pathExists fs c.credentials_path = true := by
  unfold FirebaseConfig.validate at h
  split_ifs at h with h1 h2
  exact ⟨h1, by simpa using h2⟩

lemma dataValidate_ok {c : DataConfig} {u : Unit}
    (h : c.validate = .ok u) :
    (["ccxt", "yfinance", "alpaca"].contains c.market_data_source) = true ∧
      1 ≤ c.max_data_points := by
  unfold DataConfig.validate at h
  split_ifs at h with h1 h2
  refine ⟨?_, by omega⟩
  cases hcb : (["ccxt", "yfinance", "alpaca"].contains c.market_data_source) with
  | false => exact absurd hcb h2
  | true => rfl

lemma ASDEConfig.postInit_ok {c c' : ASDEConfig} {fs : FS}
    (h : c.postInit fs = .ok c') : c' = c ∧ validConfig fs c := by
  unfold ASDEConfig.postInit at h
  cases hfb : c.firebase.validate fs with
  | error e => rw [hfb] at h; cases h
  | ok u =>
    rw [hfb] at h
    cases hdt : c.data.validate with
    | error e => rw [hdt] at h; cases h
    | ok v =>
      rw [hdt] at h
      split_ifs at h with h1 h2
      obtain ⟨hfb1, hfb2⟩ := firebaseValidate_ok hfb
      obtain ⟨hdt1, hdt2⟩ := dataValidate_ok hdt
      cases h
      exact ⟨rfl, hfb1, hfb2, hdt1, hdt2, by omega, by omega⟩

/-- Claim C3: the validation pass checks the Firebase sub-config first, then
the Data sub-config, then the top-level numeric bounds, and the first failing
check decides the result — for every field combination, `__post_init__`
returns exactly the error of the earliest violated rule in this fixed order
(and the unchanged configuration when no rule is violated), so later checks
are never reached. -/
theorem postInit_eq_specFirstViolation (fs : FS) (c : ASDEConfig) :
    c.postInit fs =
      (match specFirstViolation fs c with
       | some e => Except.error e
       | none => Except.ok c) := by
  unfold ASDEConfig.postInit FirebaseConfig.validate DataConfig.validate specFirstViolation
  split_ifs <;> rfl

lemma ASDEConfig.construct_ok {env : Env} {fs : FS} {c : ASDEConfig}
    (h : ASDEConfig.construct env fs = .ok c) : validConfig fs c := by
  unfold ASDEConfig.construct at h
  cases hfe : ASDEConfig.fromEnv env with
  | error e => rw [hfe] at h; cases h
  | ok c0 =>
    rw [hfe] at h
    obtain ⟨hcc, hv⟩ := ASDEConfig.postInit_ok h
    exact hcc ▸ hv

/-- Claim C2: for every environment and filesystem state, construction either
fails with an error (propagated to the caller) or fully succeeds with a
configuration satisfying the whole validation invariant; no partially-valid
configuration is ever returned. -/
theorem construct_all_or_nothing (env : Env) (fs : FS) :
    (∃ e, ASDEConfig.construct env fs = Except.error e) ∨
    (∃ c, ASDEConfig.construct env fs = Except.ok c ∧ validConfig fs c) := by
  cases hres : ASDEConfig.construct env fs with
  | error e => exact Or.inl ⟨e, rfl⟩
  | ok c => exact Or.inr ⟨c, rfl, ASDEConfig.construct_ok hres⟩

/-- Claim C10: the validation invariant holds for every configuration that
passes `__post_init__`, whatever the provenance of its fields — the field
record is arbitrary here, not necessarily resolved from any environment, as
for sub-configs passed directly by a caller. -/
theorem postInit_validates_any_fields (fs : FS) (c c' : ASDEConfig)
    (h : c.postInit fs = Except.ok c') : validConfig fs c' := by
  obtain ⟨hcc, hv⟩ := ASDEConfig.postInit_ok h
  exact hcc ▸ hv

/-- Concrete instance of claim C10's theorem: a field record built directly
(not from the environment) passes `__post_init__` and satisfies the
invariant. -/
theorem postInit_validates_any_fields_witness :
    ASDEConfig.postInit
        ⟨.DEBUG, "sid", ⟨"x", "p"⟩, ⟨"alpaca", 5, false⟩, 2, 31, false, true⟩ ["p"] =
      Except.ok ⟨.DEBUG, "sid", ⟨"x", "p"⟩, ⟨"alpaca", 5, false⟩, 2, 31, false, true⟩ ∧
    validConfig ["p"] ⟨.DEBUG, "sid", ⟨"x", "p"⟩, ⟨"alpaca", 5, false⟩, 2, 31, false, true⟩ :=
  ⟨rfl, postInit_validates_any_fields ["p"]
      ⟨.DEBUG, "sid", ⟨"x", "p"⟩, ⟨"alpaca", 5, false⟩, 2, 31, false, true⟩
      ⟨.DEBUG, "sid", ⟨"x", "p"⟩, ⟨"alpaca", 5, false⟩, 2, 31, false, true⟩ rfl⟩

/-- Claim C1: in an environment binding FIREBASE_PROJECT_ID to "proj-1" and
FIREBASE_CREDENTIALS to a path the filesystem contains, with no other
recognized variable present, construction succeeds and every remaining field
holds its documented default. -/
theorem construct_default_scenario (env : Env) (fs : FS) (p : String)
    (hpid : env.lookup "FIREBASE_PROJECT_ID" = some "proj-1")
    (hcred : env.lookup "FIREBASE_CREDENTIALS" = some p)
    (hex : fs.contains p = true)
    (hll : env.lookup "LOG_LEVEL" = none)
    (hsid : env.lookup "SYSTEM_ID" = none)
    (hmds : env.lookup "MARKET_DATA_SOURCE" = none)
    (hmdp : env.lookup "MAX_DATA_POINTS" = none)
    (hce : env.lookup "CACHE_ENABLED" = none)
    (hmpe : env.lookup "MAX_PARALLEL_EXPERIMENTS" = none)
    (hsts : env.lookup "SIMULATION_TIMEOUT_SECONDS" = none)
    (hecd : env.lookup "ENABLE_CAUSAL_DISCOVERY" = none)
    (helt : env.lookup "ENABLE_LIVE_TRADING" = none) :
    ASDEConfig.construct env fs =
      Except.ok
        { log_level := .INFO
          system_id := "asde-prod-001"
          firebase := { project_id := "proj-1", credentials_path := p }
          data := { market_data_source := "ccxt", max_data_points := 100000,
                    cache_enabled := true }
          max_parallel_experiments := 4
          simulation_timeout_seconds := 300
          enable_causal_discovery := true
          enable_live_trading := false } := by
  have h1 : ASDEConfig.fromEnv env =
      Except.ok
        { log_level := .INFO
          system_id := "asde-prod-001"
          firebase := { project_id := "proj-1", credentials_path := p }
          data := { market_data_source := "ccxt", max_data_points := 100000,
                    cache_enabled := true }
          max_parallel_experiments := 4
          simulation_timeout_seconds := 300
          enable_causal_discovery := true
          enable_live_trading := false } := by
    unfold ASDEConfig.fromEnv DataConfig.fromEnv FirebaseConfig.fromEnv
    simp only [getenvD, hpid, hcred, hll, hsid, hmds, hmdp, hce, hmpe, hsts, hecd, helt]
    rfl
  unfold ASDEConfig.construct
  rw [h1]
  unfold ASDEConfig.postInit FirebaseConfig.validate DataConfig.validate
  have hmem : p ∈ fs := by simpa using hex
  simp [pathExists, hmem]

/-- Concrete instance of claim C1's theorem at the base environment. -/
theorem construct_default_scenario_witness :
    ASDEConfig.construct envBase fsBase =
      Except.ok
        { log_level := .INFO
          system_id := "asde-prod-001"
          firebase := { project_id := "proj-1", credentials_path := "creds.json" }
          data := { market_data_source := "ccxt", max_data_points := 100000,
                    cache_enabled := true }
          max_parallel_experiments := 4
          simulation_timeout_seconds := 300
          enable_causal_discovery := true
          enable_live_trading := false } :=
  construct_default_scenario envBase fsBase "creds.json"
    rfl rfl rfl rfl rfl rfl rfl rfl rfl rfl rfl rfl

/-- Counterexample to claim C4 as stated: with FIREBASE_PROJECT_ID absent but
MAX_DATA_POINTS bound to a non-integer string, construction fails during
field resolution with the int-parse error, not with the missing-project-id
error, so the failure is not independent of the other variables' values. -/
theorem missing_projectId_counterexample :
    getenvD [("MAX_DATA_POINTS", "abc")] "FIREBASE_PROJECT_ID" "" = "" ∧
    ASDEConfig.construct [("MAX_DATA_POINTS", "abc")] [] =
      Except.error (ConfigError.malformedInt "abc") ∧
    ConfigError.malformedInt "abc" ≠ ConfigError.missingProjectId :=
  ⟨rfl, rfl, by decide⟩

/-- Claim C4 (amended): in every environment where FIREBASE_PROJECT_ID is
absent or empty and every other recognized variable parses into its target
type, construction fails with the missing-project-id error, whatever those
other values are. -/
theorem construct_missing_projectId (env : Env) (fs : FS)
    (hpid : getenvD env "FIREBASE_PROJECT_ID" "" = "")
    (hres : resolvesOK env = true) :
    ASDEConfig.construct env fs = Except.error ConfigError.missingProjectId := by
  unfold resolvesOK at hres
  simp only [Bool.and_eq_true, Option.isSome_iff_exists] at hres
  obtain ⟨⟨⟨⟨ll, hll⟩, ⟨mdp, hmdp⟩⟩, ⟨mpe, hmpe⟩⟩, ⟨sts, hsts⟩⟩ := hres
  unfold ASDEConfig.construct ASDEConfig.fromEnv DataConfig.fromEnv
  rw [hll, hmdp, hmpe, hsts]
  unfold ASDEConfig.postInit FirebaseConfig.validate FirebaseConfig.fromEnv
  simp [hpid]

/-- Concrete instance of claim C4's amended theorem: the empty environment. -/
theorem construct_missing_projectId_witness :
    getenvD [] "FIREBASE_PROJECT_ID" "" = "" ∧ resolvesOK [] = true ∧
    ASDEConfig.construct [] [] = Except.error ConfigError.missingProjectId :=
  ⟨rfl, rfl, construct_missing_projectId [] [] rfl rfl⟩

/-- Claim C5: with all other settings valid, the numeric bounds are exact
thresholds: MAX_DATA_POINTS resolving to 0 fails and 1 succeeds,
SIMULATION_TIMEOUT_SECONDS of 29 fails and 30 succeeds,
MAX_PARALLEL_EXPERIMENTS of 0 fails and 1 succeeds, each failure with its
range error. -/
theorem construct_numeric_boundaries :
    ASDEConfig.construct (("MAX_DATA_POINTS", "0") :: envBase) fsBase =
        Except.error (ConfigError.invalidMaxDataPoints 0) ∧
    (∃ c, ASDEConfig.construct (("MAX_DATA_POINTS", "1") :: envBase) fsBase = Except.ok c ∧
        c.data.max_data_points = 1) ∧
    ASDEConfig.construct (("SIMULATION_TIMEOUT_SECONDS", "29") :: envBase) fsBase =
        Except.error ConfigError.invalidSimulationTimeout ∧
    (∃ c, ASDEConfig.construct (("SIMULATION_TIMEOUT_SECONDS", "30") :: envBase) fsBase =
        Except.ok c ∧ c.simulation_timeout_seconds = 30) ∧
    ASDEConfig.construct (("MAX_PARALLEL_EXPERIMENTS", "0") :: envBase) fsBase =
        Except.error ConfigError.invalidMaxParallelExperiments ∧
    (∃ c, ASDEConfig.construct (("MAX_PARALLEL_EXPERIMENTS", "1") :: envBase) fsBase =
        Except.ok c ∧ c.max_parallel_experiments = 1) :=
  ⟨rfl, ⟨_, rfl, rfl⟩, rfl, ⟨_, rfl, rfl⟩, rfl, ⟨_, rfl, rfl⟩⟩

/-- Claim C6: with all other settings valid, construction fails with the
invalid-source error exactly when the resolved market data source lies
outside the fixed set, and succeeds carrying that source when it is a
member. -/
theorem construct_market_data_source (s : String) :
    (((["ccxt", "yfinance", "alpaca"] : List String).contains s) = false →
      ASDEConfig.construct (("MARKET_DATA_SOURCE", s) :: envBase) fsBase =
        Except.error ConfigError.invalidMarketDataSource) ∧
    (((["ccxt", "yfinance", "alpaca"] : List String).contains s) = true →
      ∃ c, ASDEConfig.construct (("MARKET_DATA_SOURCE", s) :: envBase) fsBase =
        Except.ok c ∧ c.data.market_data_source = s) := by
  have kc : ASDEConfig.construct (("MARKET_DATA_SOURCE", s) :: envBase) fsBase =
      ASDEConfig.postInit
        { log_level := .INFO
          system_id := "asde-prod-001"
          firebase := { project_id := "proj-1", credentials_path := "creds.json" }
          data := { market_data_source := s, max_data_points := 100000, cache_enabled := true }
          max_parallel_experiments := 4
          simulation_timeout_seconds := 300
          enable_causal_discovery := true
          enable_live_trading := false } fsBase := rfl
  constructor
  · intro h
    have h' : ¬s = "ccxt" ∧ ¬s = "yfinance" ∧ ¬s = "alpaca" := by simpa using h
    rw [kc]
    unfold ASDEConfig.postInit FirebaseConfig.validate DataConfig.validate
    simp [pathExists, fsBase, h'.1, h'.2.1, h'.2.2]
  · intro h
    have h' : s = "ccxt" ∨ s = "yfinance" ∨ s = "alpaca" := by simpa using h
    refine ⟨{ log_level := .INFO
              system_id := "asde-prod-001"
              firebase := { project_id := "proj-1", credentials_path := "creds.json" }
              data := { market_data_source := s, max_data_points := 100000,
                        cache_enabled := true }
              max_parallel_experiments := 4
              simulation_timeout_seconds := 300
              enable_causal_discovery := true
              enable_live_trading := false }, ?_, rfl⟩
    rw [kc]
    rcases h' with h' | h' | h' <;> subst h' <;> rfl

/-- Concrete instances of claim C6's theorem: "kraken" is rejected with the
enumeration error, "yfinance" is accepted. -/
theorem construct_market_data_source_witness :
    ASDEConfig.construct (("MARKET_DATA_SOURCE", "kraken") :: envBase) fsBase =
        Except.error ConfigError.invalidMarketDataSource ∧
    (∃ c, ASDEConfig.construct (("MARKET_DATA_SOURCE", "yfinance") :: envBase) fsBase =
        Except.ok c ∧ c.data.market_data_source = "yfinance") :=
  ⟨(construct_market_data_source "kraken").1 rfl,
   (construct_market_data_source "yfinance").2 rfl⟩

/-- Claim C8: construction is deterministic in the environment and
filesystem: two runs on the same input give field-wise equal configurations,
or the same error. -/
theorem construct_deterministic (env : Env) (fs : FS) :
    (∀ c₁ c₂, ASDEConfig.construct env fs = Except.ok c₁ →
        ASDEConfig.construct env fs = Except.ok c₂ → fieldwiseEq c₁ c₂) ∧
    (∀ e₁ e₂, ASDEConfig.construct env fs = Except.error e₁ →
        ASDEConfig.construct env fs = Except.error e₂ → e₁ = e₂) := by
  constructor
  · intro c₁ c₂ h1 h2
    have h := h1.symm.trans h2
    injection h with h
    subst h
    unfold fieldwiseEq
    exact ⟨rfl, rfl, rfl, rfl, rfl, rfl, rfl, rfl, rfl, rfl, rfl⟩
  · intro e₁ e₂ h1 h2
    exact Except.error.inj (h1.symm.trans h2)

/-- Concrete instance of claim C8's theorem at the base environment. -/
theorem construct_deterministic_witness :
    fieldwiseEq
      { log_level := .INFO
        system_id := "asde-prod-001"
        firebase := { project_id := "proj-1", credentials_path := "creds.json" }
        data := { market_data_source := "ccxt", max_data_points := 100000,
                  cache_enabled := true }
        max_parallel_experiments := 4
        simulation_timeout_seconds := 300
        enable_causal_discovery := true
        enable_live_trading := false }
      { log_level := .INFO
        system_id := "asde-prod-001"
        firebase := { project_id := "proj-1", credentials_path := "creds.json" }
        data := { market_data_source := "ccxt", max_data_points := 100000,
                  cache_enabled := true }
        max_parallel_experiments := 4
        simulation_timeout_seconds := 300
        enable_causal_discovery := true
        enable_live_trading := false } :=
  (construct_deterministic envBase fsBase).1 _ _ rfl rfl

/-- Claim C9: parsing of the three boolean toggles is total: for every three
strings bound to CACHE_ENABLED, ENABLE_CAUSAL_DISCOVERY and
ENABLE_LIVE_TRADING (other settings valid), construction succeeds — never a
parse error — and each flag is true exactly when its string lowercased equals
"true". -/
theorem construct_bool_toggles_total (s₁ s₂ s₃ : String) :
    ASDEConfig.construct
        (("CACHE_ENABLED", s₁) :: ("ENABLE_CAUSAL_DISCOVERY", s₂) ::
          ("ENABLE_LIVE_TRADING", s₃) :: envBase) fsBase =
      Except.ok
        { log_level := .INFO
          system_id := "asde-prod-001"
          firebase := { project_id := "proj-1", credentials_path := "creds.json" }
          data := { market_data_source := "ccxt", max_data_points := 100000,
                    cache_enabled := decide (pyLower s₁ = "true") }
          max_parallel_experiments := 4
          simulation_timeout_seconds := 300
          enable_causal_discovery := decide (pyLower s₂ = "true")
          enable_live_trading := decide (pyLower s₃ = "true") } := rfl

end ASDE
